import Mathlib

/-
Verification of the EV Portal session lifecycle and payment reconciliation
engine.  The definitions below are a shallow embedding of the Python source:

  * `SessionRow`, `upsert_session_sync`, `mark_*` —
      src/addons/ev_portal/rootfs/app/db.py
  * `handle_finalize`, `runAttempts` —
      src/addons/ev_portal/rootfs/app/finalize.py (`_handle_finalize`)
  * `capture_session`, `void_session` —
      src/ev_portal/rootfs/app/admin/router.py
  * `start_session_lock_step`, `submit_payment_lock_step` —
      src/addons/ev_portal/rootfs/app/endpoints/start.py and
      src/addons/ev_portal/rootfs/app/endpoints/submit_payment.py

SQLite writes are keyed by `idempotency_key` (UPDATE ... WHERE
idempotency_key = ?), so every store operation is modelled at the level of
the single addressed row, as a function on `Option SessionRow` (`none` =
no row with that key).
-/

namespace EvPortal

/-- One row of the `sessions` table (schema `_CREATE_TABLE` plus the
`_migrate_sessions` columns `note` and `is_deleted` in db.py).  Columns
declared `NOT NULL` are plain types; nullable columns are `Option`. -/
structure SessionRow where
  idempotency_key : String
  charger_id : String
  booking_id : String
  session_id : String
  state : String
  authorized : Int
  authorized_amount_cents : Int
  captured_amount_cents : Option Int
  square_environment : String
  square_customer_id : Option String
  square_card_id : Option String
  card_brand : Option String
  card_last4 : Option String
  card_exp_month : Option Int
  card_exp_year : Option Int
  square_payment_id : Option String
  square_capture_payment_id : Option String
  created_at : String
  updated_at : String
  last_error : Option String
  note : Option String
  is_deleted : Int
  deriving Repr, DecidableEq

/-- Python truthiness of an optional string column: `None` and the empty
string are both falsy (`if not square_payment_id: ...`).  Returns the
value only when it is a non-empty string. -/
def blankToNone : Option String → Option String
  | none => none
  | some s => if s = "" then none else some s

/-- Python `repr` of an optional string, as used in the f-string error
messages (`{value!r}`): `None` for `None`, single-quoted otherwise. -/
def pyRepr : Option String → String
  | none => "None"
  | some s => "\x27" ++ s ++ "\x27"

/-- The session dict passed to `db.upsert_session` by its two callers
(start.py and submit_payment.py); both supply exactly these seven keys.
`created_at` is defaulted and `updated_at` overwritten inside
`_upsert_session_sync` itself. -/
structure UpsertPatch where
  idempotency_key : String
  charger_id : String
  booking_id : String
  session_id : String
  state : String
  authorized_amount_cents : Int
  square_environment : String
  deriving Repr, DecidableEq

/-- `_upsert_session_sync` (db.py lines 191-214) restricted to the row
addressed by `idempotency_key`.  The INSERT populates missing columns from
the schema defaults; the ON CONFLICT update overwrites every supplied
column except `idempotency_key` and `created_at`, and applies the
no-downgrade CASE expression to `state`:
`state = CASE WHEN sessions.state IN ('AUTHORIZED','CAPTURED') THEN
sessions.state ELSE excluded.state END`.  `updated_at` is always set to
`now`. -/
def upsert_session_sync (now : String) (p : UpsertPatch) :
    Option SessionRow → SessionRow
  | none =>
    { idempotency_key := p.idempotency_key
      charger_id := p.charger_id
      booking_id := p.booking_id
      session_id := p.session_id
      state := p.state
      authorized := 0
      authorized_amount_cents := p.authorized_amount_cents
      captured_amount_cents := none
      square_environment := p.square_environment
      square_customer_id := none
      square_card_id := none
      card_brand := none
      card_last4 := none
      card_exp_month := none
      card_exp_year := none
      square_payment_id := none
      square_capture_payment_id := none
      created_at := now
      updated_at := now
      last_error := none
      note := none
      is_deleted := 0 }
  | some r =>
    { r with
      charger_id := p.charger_id
      booking_id := p.booking_id
      session_id := p.session_id
      state :=
        if r.state = "AUTHORIZED" ∨ r.state = "CAPTURED" then r.state
        else p.state
      authorized_amount_cents := p.authorized_amount_cents
      square_environment := p.square_environment
      updated_at := now }

/-- The `**card_meta` keyword arguments passed to `mark_authorized` by
submit_payment.py and admin/router.py: the six card display columns. -/
structure CardMeta where
  square_customer_id : Option String
  square_card_id : Option String
  card_brand : Option String
  card_last4 : Option String
  card_exp_month : Option Int
  card_exp_year : Option Int
  deriving Repr, DecidableEq

/-- Effect of `_mark_authorized_sync` (db.py lines 222-245) on the
addressed row: sets state, authorized flag, amount, payment id, clears
`last_error`, refreshes `updated_at`, and writes the card metadata. -/
def mark_authorized_row (now square_payment_id : String)
    (authorized_amount_cents : Int) (meta : CardMeta) (r : SessionRow) :
    SessionRow :=
  { r with
    state := "AUTHORIZED"
    authorized := 1
    authorized_amount_cents := authorized_amount_cents
    square_payment_id := some square_payment_id
    last_error := none
    updated_at := now
    square_customer_id := meta.square_customer_id
    square_card_id := meta.square_card_id
    card_brand := meta.card_brand
    card_last4 := meta.card_last4
    card_exp_month := meta.card_exp_month
    card_exp_year := meta.card_exp_year }

/-- `_mark_authorized_sync` at the addressed key: a plain SQL UPDATE, so
it changes nothing (updates 0 rows) when no row has the key. -/
def mark_authorized_sync (now square_payment_id : String)
    (authorized_amount_cents : Int) (meta : CardMeta) :
    Option SessionRow → Option SessionRow :=
  Option.map (mark_authorized_row now square_payment_id
    authorized_amount_cents meta)

/-- Effect of `_mark_failed_sync` (db.py lines 264-271) on the row. -/
def mark_failed_row (now error : String) (r : SessionRow) : SessionRow :=
  { r with state := "FAILED", last_error := some error, updated_at := now }

/-- `_mark_failed_sync` at the addressed key. -/
def mark_failed_sync (now error : String) :
    Option SessionRow → Option SessionRow :=
  Option.map (mark_failed_row now error)

/-- Effect of `_mark_captured_sync` (db.py lines 279-294) on the row. -/
def mark_captured_row (now square_capture_payment_id : String)
    (captured_amount_cents : Int) (r : SessionRow) : SessionRow :=
  { r with
    state := "CAPTURED"
    square_capture_payment_id := some square_capture_payment_id
    captured_amount_cents := some captured_amount_cents
    updated_at := now }

/-- `_mark_captured_sync` at the addressed key. -/
def mark_captured_sync (now square_capture_payment_id : String)
    (captured_amount_cents : Int) : Option SessionRow → Option SessionRow :=
  Option.map (mark_captured_row now square_capture_payment_id
    captured_amount_cents)

/-- Effect of `_mark_voided_sync` (db.py lines 311-322) on the row:
state `VOIDED`, `captured_amount_cents = 0`, capture id column set to the
voided payment id. -/
def mark_voided_row (now square_payment_id : String) (r : SessionRow) :
    SessionRow :=
  { r with
    state := "VOIDED"
    captured_amount_cents := some 0
    square_capture_payment_id := some square_payment_id
    updated_at := now }

/-- `_mark_voided_sync` at the addressed key. -/
def mark_voided_sync (now square_payment_id : String) :
    Option SessionRow → Option SessionRow :=
  Option.map (mark_voided_row now square_payment_id)

/-- Effect of `_mark_canceled_sync` (db.py lines 398-409) on the row. -/
def mark_canceled_row (now square_payment_id : String) (r : SessionRow) :
    SessionRow :=
  { r with
    state := "CANCELED"
    square_capture_payment_id := some square_payment_id
    captured_amount_cents := some 0
    updated_at := now }

/-- `_mark_canceled_sync` at the addressed key. -/
def mark_canceled_sync (now square_payment_id : String) :
    Option SessionRow → Option SessionRow :=
  Option.map (mark_canceled_row now square_payment_id)

/-- Effect of `_mark_refunded_sync` (db.py lines 417-430) on the row. -/
def mark_refunded_row (now refund_id : String) (amount_cents : Int)
    (r : SessionRow) : SessionRow :=
  { r with
    state := "REFUNDED"
    square_capture_payment_id := some refund_id
    captured_amount_cents := some amount_cents
    updated_at := now }

/-- `_mark_refunded_sync` at the addressed key. -/
def mark_refunded_sync (now refund_id : String) (amount_cents : Int) :
    Option SessionRow → Option SessionRow :=
  Option.map (mark_refunded_row now refund_id amount_cents)

/-! Example data used by the closed witness and counterexample theorems. -/

/-- A session row in state AUTHORIZED with stored payment, card and
customer references (the state submit_payment.py leaves a session in). -/
def exRowAuthorized : SessionRow :=
  { idempotency_key := "ev:ch1:bk1"
    charger_id := "ch1"
    booking_id := "bk1"
    session_id := "uid-1"
    state := "AUTHORIZED"
    authorized := 1
    authorized_amount_cents := 500
    captured_amount_cents := none
    square_environment := "sandbox"
    square_customer_id := some "cus_1"
    square_card_id := some "card_1"
    card_brand := some "VISA"
    card_last4 := some "1111"
    card_exp_month := some 12
    card_exp_year := some 2030
    square_payment_id := some "pay_1"
    square_capture_payment_id := none
    created_at := "t0"
    updated_at := "t0"
    last_error := none
    note := none
    is_deleted := 0 }

/-- The same session after a capture: state CAPTURED. -/
def exRowCaptured : SessionRow :=
  { exRowAuthorized with
    state := "CAPTURED"
    captured_amount_cents := some 500
    square_capture_payment_id := some "pay_1" }

/-- The upsert dict start.py builds before showing the card form:
proposed state AWAITING_PAYMENT_INFO. -/
def exPatchAwaiting : UpsertPatch :=
  { idempotency_key := "ev:ch1:bk1"
    charger_id := "ch1"
    booking_id := "bk1"
    session_id := "uid-2"
    state := "AWAITING_PAYMENT_INFO"
    authorized_amount_cents := 100
    square_environment := "sandbox" }

/-- An upsert dict proposing state CAPTURED. -/
def exPatchCaptured : UpsertPatch :=
  { exPatchAwaiting with state := "CAPTURED" }

/-- An example card metadata bundle. -/
def exCardMeta : CardMeta :=
  { square_customer_id := some "cus_1"
    square_card_id := some "card_1"
    card_brand := some "VISA"
    card_last4 := some "1111"
    card_exp_month := some 12
    card_exp_year := some 2030 }

/-- Claim C1: for every session row whose current state is AUTHORIZED or
CAPTURED, an upsert proposing a state outside {AUTHORIZED, CAPTURED}
(in particular AWAITING_PAYMENT_INFO) leaves the row's `state` field
unchanged. -/
theorem upsert_no_downgrade (now : String) (r : SessionRow)
    (p : UpsertPatch)
    (hcur : r.state = "AUTHORIZED" ∨ r.state = "CAPTURED")
    (hp1 : p.state ≠ "AUTHORIZED") (hp2 : p.state ≠ "CAPTURED") :
    (upsert_session_sync now p (some r)).state = r.state := by
  simp [upsert_session_sync, hcur]

/-- Witness for C1: a concrete AUTHORIZED row upserted with proposed
state AWAITING_PAYMENT_INFO keeps state AUTHORIZED. -/
theorem upsert_no_downgrade_witness :
    (upsert_session_sync "t1" exPatchAwaiting (some exRowAuthorized)).state
      = exRowAuthorized.state :=
  upsert_no_downgrade "t1" exRowAuthorized exPatchAwaiting
    (Or.inl rfl) (by decide) (by decide)

/-- Claim C9: for an existing row in AUTHORIZED or CAPTURED,
`upsert_session` preserves `state` for every proposed state, including
AUTHORIZED and CAPTURED themselves; the dedicated `mark_*` writers, by
contrast, set the state unconditionally. -/
theorem upsert_terminal_state_frozen (now : String) (r : SessionRow)
    (p : UpsertPatch)
    (hcur : r.state = "AUTHORIZED" ∨ r.state = "CAPTURED") :
    (upsert_session_sync now p (some r)).state = r.state
    ∧ (∀ n2 cid amt, (mark_captured_row n2 cid amt r).state = "CAPTURED")
    ∧ (∀ n2 pid, (mark_voided_row n2 pid r).state = "VOIDED")
    ∧ (∀ n2 e, (mark_failed_row n2 e r).state = "FAILED") := by
  refine ⟨by simp [upsert_session_sync, hcur], ?_, ?_, ?_⟩ <;>
    intros <;> rfl

/-- Witness for C9: an upsert proposing CAPTURED onto a concrete
AUTHORIZED row keeps state AUTHORIZED. -/
theorem upsert_terminal_state_frozen_witness :
    (upsert_session_sync "t1" exPatchCaptured (some exRowAuthorized)).state
      = exRowAuthorized.state
    ∧ (mark_captured_row "t1" "cap_1" 400 exRowAuthorized).state
      = "CAPTURED" := by
  have h := upsert_terminal_state_frozen "t1" exRowAuthorized
    exPatchCaptured (Or.inl rfl)
  exact ⟨h.1, h.2.1 "t1" "cap_1" 400⟩

/-- Claim C7: `mark_authorized` is unconditional on the current state:
for an existing row it sets state AUTHORIZED, stores the payment
reference and amount, and clears `last_error`; for a missing key it is a
no-op that creates no row. -/
theorem mark_authorized_unconditional (now pay_id : String) (amount : Int)
    (meta : CardMeta) (r : SessionRow) :
    mark_authorized_sync now pay_id amount meta (some r)
      = some (mark_authorized_row now pay_id amount meta r)
    ∧ (mark_authorized_row now pay_id amount meta r).state = "AUTHORIZED"
    ∧ (mark_authorized_row now pay_id amount meta r).square_payment_id
      = some pay_id
    ∧ (mark_authorized_row now pay_id amount meta r).authorized_amount_cents
      = amount
    ∧ (mark_authorized_row now pay_id amount meta r).last_error = none
    ∧ mark_authorized_sync now pay_id amount meta none = none :=
  ⟨rfl, rfl, rfl, rfl, rfl, rfl⟩

/-! ## Finalize reconciler (finalize.py) -/

/-- The slice of a Square payment object that `_handle_finalize` reads:
`payment.get("id", default)` and
`payment.get("amount_money", \x7b\x7d).get("amount", default)`.
`none` models an absent key, making the `.get` defaults observable. -/
structure Payment where
  id : Option String
  amount : Option Int
  deriving Repr, DecidableEq

/-- Oracle for the Square gateway: the outcome of the n-th attempt
(1-indexed, as in `for attempt in range(1, _MAX_RETRIES + 1)`) of each
operation `_handle_finalize` can call.  `Except.error` models the call
raising an exception with `str(exc)` as payload. -/
structure Gateway where
  cancelResult : Nat → Except String Payment
  captureResult : Nat → Except String Payment
  chargeResult : Nat → Except String Payment

/-- Observable actions of one `_handle_finalize` run, in order:
gateway calls (`square.cancel_payment`, `square.capture_payment`,
`square.charge_card_payment`) and the fixed-delay retry sleep
`asyncio.sleep(_RETRY_DELAY_S)` (with `_RETRY_DELAY_S = 5.0`, a
constant). -/
inductive Ev where
  | cancelCall (payment_id : String)
  | captureCall (payment_id : String) (final_amount_cents : Int)
  | chargeCall (card_id customer_id booking_id : String)
      (amount_cents : Int) (idem_key : String)
  | sleepRetry
  deriving Repr, DecidableEq

/-- Whether an event is a direct-charge gateway call. -/
def Ev.isChargeCall : Ev → Bool
  | .chargeCall _ _ _ _ _ => true
  | _ => false

/-- Whether an event belongs to the normal capture loop for the given
payment id and amount: a capture call with exactly those arguments, or a
retry sleep. -/
def Ev.isCaptureOrSleep (payment_id : String) (amount : Int) : Ev → Bool
  | .captureCall p a => p == payment_id && a == amount
  | .sleepRetry => true
  | _ => false

/-- The single DB write `_handle_finalize` performs at the end of a
branch (each branch returns immediately after its write). -/
inductive DbEff where
  | markFailed (error : String)
  | markVoided (square_payment_id : String)
  | markCaptured (square_capture_payment_id : String)
      (captured_amount_cents : Int)
  deriving Repr, DecidableEq

/-- `_MAX_RETRIES` (finalize.py line 37). -/
def _MAX_RETRIES : Nat := 3

/-- One retry loop of `_handle_finalize`
(`for attempt in range(1, _MAX_RETRIES + 1)` with
`if attempt < _MAX_RETRIES: await asyncio.sleep(_RETRY_DELAY_S)` after a
failure).  `attempt` is the current 1-indexed attempt, `remaining` the
number of attempts still allowed, and the third argument the running
`last_error`.  Returns the emitted events and either the successful
payment or the final `last_error` (`none` only if no attempt ran). -/
def runAttempts (res : Nat → Except String Payment) (ev : Ev) :
    Nat → Nat → Option String → List Ev × Except (Option String) Payment
  | _, 0, last_error => ([], Except.error last_error)
  | attempt, remaining + 1, _ =>
    match res attempt with
    | Except.ok p => ([ev], Except.ok p)
    | Except.error e =>
      let rest := runAttempts res ev (attempt + 1) remaining (some e)
      (ev :: (if remaining = 0 then rest.1 else Ev.sleepRetry :: rest.1),
        rest.2)

/-- Python f-string rendering of the running `last_error`
(an `Optional[str]` initialised to `None`). -/
def optErrStr : Option String → String
  | none => "None"
  | some e => e

/-- `_handle_finalize` (finalize.py lines 41-273), from the parsed JSON
payload (`payload.get("booking_id")`, `payload.get("final_amount_cents")`)
and the row returned by `db.get_session_by_booking_id`, to the list of
gateway events and the DB write performed.  The branch structure follows
the source: drop on falsy booking id / missing amount / missing row;
drop if already CAPTURED or VOIDED; `mark_failed` on a missing
`square_payment_id`; void loop when the amount is 0; void-then-direct-
charge when it exceeds the authorized amount; capture loop otherwise. -/
def handle_finalize (g : Gateway) (booking_id : Option String)
    (final_amount_cents : Option Int) (row : Option SessionRow) :
    List Ev × Option DbEff :=
  match booking_id, final_amount_cents with
  | some bid, some fa =>
    if bid = "" then ([], none)
    else
      match row with
      | none => ([], none)
      | some r =>
        if r.state = "CAPTURED" ∨ r.state = "VOIDED" then ([], none)
        else
          match blankToNone r.square_payment_id with
          | none =>
            ([], some (DbEff.markFailed
              "missing square_payment_id for capture"))
          | some pid =>
            if fa = 0 then
              let att := runAttempts g.cancelResult (Ev.cancelCall pid)
                1 _MAX_RETRIES none
              match att.2 with
              | Except.ok p =>
                (att.1, some (DbEff.markVoided (p.id.getD pid)))
              | Except.error last_error =>
                (att.1, some (DbEff.markFailed
                  ("void failed after " ++ toString _MAX_RETRIES
                    ++ " attempts: " ++ optErrStr last_error)))
            else
              -- `row.get("authorized_amount_cents") or 0`: the column is
              -- NOT NULL, and `x or 0 = x` for an integer, so this is the
              -- stored value.
              if r.authorized_amount_cents < fa then
                -- Step A: best-effort void (result ignored, non-fatal).
                let voidTrace := (runAttempts g.cancelResult
                  (Ev.cancelCall pid) 1 _MAX_RETRIES none).1
                match blankToNone r.square_card_id,
                    blankToNone r.square_customer_id with
                | some card_id, some customer_id =>
                  -- Stable idempotency key: f"fin:{idempotency_key}"[:45]
                  let charge_idem :=
                    ("fin:" ++ r.idempotency_key).take 45
                  let att := runAttempts g.chargeResult
                    (Ev.chargeCall card_id customer_id bid fa charge_idem)
                    1 _MAX_RETRIES none
                  match att.2 with
                  | Except.ok p =>
                    (voidTrace ++ att.1, some (DbEff.markCaptured
                      (p.id.getD "") (p.amount.getD fa)))
                  | Except.error last_error =>
                    (voidTrace ++ att.1, some (DbEff.markFailed
                      ("direct charge failed after "
                        ++ toString _MAX_RETRIES ++ " attempts: "
                        ++ optErrStr last_error)))
                | _, _ =>
                  (voidTrace, some (DbEff.markFailed
                    ("overcharge: missing card_id="
                      ++ pyRepr r.square_card_id ++ " or customer_id="
                      ++ pyRepr r.square_customer_id)))
              else
                let att := runAttempts g.captureResult
                  (Ev.captureCall pid fa) 1 _MAX_RETRIES none
                match att.2 with
                | Except.ok p =>
                  (att.1, some (DbEff.markCaptured (p.id.getD pid)
                    (p.amount.getD fa)))
                | Except.error last_error =>
                  (att.1, some (DbEff.markFailed
                    ("capture failed after " ++ toString _MAX_RETRIES
                      ++ " attempts: " ++ optErrStr last_error)))
  | _, _ => ([], none)

/-- Apply the DB write chosen by `_handle_finalize` to the session row it
resolved (the `db.mark_failed` / `db.mark_voided` / `db.mark_captured`
call on `idempotency_key`). -/
def apply_db_eff (now : String) (eff : Option DbEff) (r : SessionRow) :
    SessionRow :=
  match eff with
  | none => r
  | some (DbEff.markFailed e) => mark_failed_row now e r
  | some (DbEff.markVoided pid) => mark_voided_row now pid r
  | some (DbEff.markCaptured cid amt) => mark_captured_row now cid amt r

/-- A gateway whose calls all succeed: void returns the cancelled
payment, capture echoes the capture, direct charge returns a fresh
payment id. -/
def gwAllOk : Gateway :=
  { cancelResult := fun _ => Except.ok { id := some "pay_1", amount := some 500 }
    captureResult := fun _ => Except.ok { id := some "cap_1", amount := some 480 }
    chargeResult := fun _ => Except.ok { id := some "chg_1", amount := some 800 } }

/-- A gateway whose calls all raise, with attempt-dependent capture
errors. -/
def gwAllFail : Gateway :=
  { cancelResult := fun _ => Except.error "boom"
    captureResult := fun k => Except.error ("cap fail " ++ toString k)
    chargeResult := fun _ => Except.error "boom" }

/-- A gateway for the overcharge scenario: the void succeeds and the
direct charge returns a new payment id `chg_1` for 800 cents. -/
def gwOvercharge : Gateway :=
  { cancelResult := fun _ => Except.ok { id := some "pay_1", amount := some 500 }
    captureResult := fun _ => Except.error "unused"
    chargeResult := fun _ => Except.ok { id := some "chg_1", amount := some 800 } }

/-- The authorized example row with no stored card reference. -/
def exRowNoCard : SessionRow :=
  { exRowAuthorized with square_card_id := none }

/-- The first event of a retry loop that is allowed at least one attempt
is its gateway call. -/
lemma runAttempts_head (res : Nat → Except String Payment) (ev : Ev)
    (a n : Nat) (l : Option String) :
    ((runAttempts res ev a (n + 1) l).1).head? = some ev := by
  cases h : res a <;> simp [runAttempts, h]

/-- Every event of the capture retry loop is either the capture call
(with exactly the loop's payment id and amount) or a retry sleep. -/
lemma runAttempts_all_capture (res : Nat → Except String Payment)
    (pid : String) (amt : Int) :
    ∀ (n a : Nat) (l : Option String),
      ((runAttempts res (Ev.captureCall pid amt) a n l).1).all
        (Ev.isCaptureOrSleep pid amt) = true := by
  intro n
  induction n with
  | zero => intro a l; simp [runAttempts]
  | succ m ih =>
    intro a l
    cases h : res a with
    | ok p => simp [runAttempts, h, Ev.isCaptureOrSleep]
    | error e =>
      by_cases hm : m = 0 <;>
        simp [runAttempts, h, hm, Ev.isCaptureOrSleep, ih]

/-- Claim C3: a finalize message that resolves to a session already
CAPTURED or VOIDED performs no gateway call and leaves the row
unchanged, so replaying a finalize message is idempotent. -/
theorem finalize_settled_idempotent (g : Gateway) (bid : String)
    (fa : Int) (row : SessionRow)
    (h : row.state = "CAPTURED" ∨ row.state = "VOIDED") :
    handle_finalize g (some bid) (some fa) (some row) = ([], none)
    ∧ (∀ now, apply_db_eff now
        (handle_finalize g (some bid) (some fa) (some row)).2 row = row) := by
  by_cases hb : bid = "" <;>
    simp [handle_finalize, hb, h, apply_db_eff]

/-- Witness for C3: replaying finalize (amount 480) against the concrete
CAPTURED row with an all-success gateway does nothing. -/
theorem finalize_settled_idempotent_witness :
    handle_finalize gwAllOk (some "bk1") (some 480) (some exRowCaptured)
      = ([], none)
    ∧ apply_db_eff "t9"
        (handle_finalize gwAllOk (some "bk1") (some 480)
          (some exRowCaptured)).2 exRowCaptured = exRowCaptured := by
  have h := finalize_settled_idempotent gwAllOk "bk1" 480 exRowCaptured
    (Or.inl rfl)
  exact ⟨h.1, h.2 "t9"⟩

/-- Counterexample to claim C4 as stated: `exRowCaptured` has a stored
payment reference and the gateway void would succeed, yet finalize with
amount 0 issues no void and the row does not end in state VOIDED (the
settled-state guard fires first). -/
theorem finalize_zero_settled_counterexample :
    exRowCaptured.square_payment_id = some "pay_1"
    ∧ handle_finalize gwAllOk (some "bk1") (some 0) (some exRowCaptured)
        = ([], none)
    ∧ (apply_db_eff "t9"
        (handle_finalize gwAllOk (some "bk1") (some 0)
          (some exRowCaptured)).2 exRowCaptured).state ≠ "VOIDED" := by
  exact ⟨rfl, rfl, by decide⟩

/-- Claim C4 (amended: the session must not already be CAPTURED or
VOIDED): finalize with amount 0 on a session with a stored payment
reference voids the pre-authorization, and on success the row has state
VOIDED and `captured_amount_cents = 0`. -/
theorem finalize_zero_voids (g : Gateway) (bid : String)
    (row : SessionRow) (pid : String) (pv : Payment)
    (hbid : bid ≠ "")
    (h1 : row.state ≠ "CAPTURED") (h2 : row.state ≠ "VOIDED")
    (hpid : row.square_payment_id = some pid) (hpid2 : pid ≠ "")
    (hcancel : g.cancelResult 1 = .ok pv) :
    handle_finalize g (some bid) (some 0) (some row)
      = ([Ev.cancelCall pid], some (DbEff.markVoided (pv.id.getD pid)))
    ∧ (∀ now,
        (apply_db_eff now (some (DbEff.markVoided (pv.id.getD pid)))
          row).state = "VOIDED"
      ∧ (apply_db_eff now (some (DbEff.markVoided (pv.id.getD pid)))
          row).captured_amount_cents = some 0) := by
  simp [handle_finalize, hbid, h1, h2, hpid, hpid2, blankToNone,
    _MAX_RETRIES, runAttempts, hcancel, apply_db_eff, mark_voided_row]

/-- Witness for the amended C4: the concrete AUTHORIZED $1.00 session
finalized with amount 0 is voided with `captured_amount_cents = 0`. -/
theorem finalize_zero_voids_witness :
    handle_finalize gwAllOk (some "bk1") (some 0) (some exRowAuthorized)
      = ([Ev.cancelCall "pay_1"], some (DbEff.markVoided "pay_1"))
    ∧ (apply_db_eff "t9" (some (DbEff.markVoided "pay_1"))
        exRowAuthorized).state = "VOIDED"
    ∧ (apply_db_eff "t9" (some (DbEff.markVoided "pay_1"))
        exRowAuthorized).captured_amount_cents = some 0 := by
  have h := finalize_zero_voids gwAllOk "bk1" exRowAuthorized "pay_1"
    { id := some "pay_1", amount := some 500 }
    (by decide) (by decide) (by decide) rfl (by decide) rfl
  exact ⟨h.1, (h.2 "t9").1, (h.2 "t9").2⟩

/-- Claim C5: a finalize void or capture whose gateway call fails on
every attempt makes exactly `_MAX_RETRIES = 3` attempts, with one retry
sleep between consecutive attempts and none after the last, and then
marks the session FAILED with an error message naming the attempt
count. -/
theorem finalize_retry_bound (g : Gateway) (bid : String)
    (row : SessionRow) (pid : String) (fa : Int) (errV errC : Nat → String)
    (hbid : bid ≠ "")
    (h1 : row.state ≠ "CAPTURED") (h2 : row.state ≠ "VOIDED")
    (hpid : row.square_payment_id = some pid) (hpid2 : pid ≠ "")
    (hfa : fa ≠ 0) (hle : fa ≤ row.authorized_amount_cents)
    (hvf : ∀ k, g.cancelResult k = .error (errV k))
    (hcf : ∀ k, g.captureResult k = .error (errC k)) :
    (handle_finalize g (some bid) (some 0) (some row) =
      ([Ev.cancelCall pid, Ev.sleepRetry, Ev.cancelCall pid, Ev.sleepRetry,
        Ev.cancelCall pid],
       some (DbEff.markFailed ("void failed after "
         ++ toString _MAX_RETRIES ++ " attempts: " ++ errV 3))))
    ∧ (handle_finalize g (some bid) (some fa) (some row) =
      ([Ev.captureCall pid fa, Ev.sleepRetry, Ev.captureCall pid fa,
        Ev.sleepRetry, Ev.captureCall pid fa],
       some (DbEff.markFailed ("capture failed after "
         ++ toString _MAX_RETRIES ++ " attempts: " ++ errC 3))))
    ∧ (∀ now, (apply_db_eff now
        (handle_finalize g (some bid) (some fa) (some row)).2 row).state
        = "FAILED") := by
  have hnotlt : ¬ (row.authorized_amount_cents < fa) := not_lt.mpr hle
  refine ⟨?_, ?_, ?_⟩ <;>
    simp [handle_finalize, hbid, h1, h2, hpid, hpid2, blankToNone, hfa,
      hnotlt, _MAX_RETRIES, runAttempts, hvf 1, hvf 2, hvf 3, hcf 1, hcf 2,
      hcf 3, optErrStr, apply_db_eff, mark_failed_row]

/-- Witness for C5: with the always-failing gateway, finalize 0 makes
three void attempts and finalize 480 makes three capture attempts, each
ending FAILED with a message naming the three attempts. -/
theorem finalize_retry_bound_witness :
    (handle_finalize gwAllFail (some "bk1") (some 0) (some exRowAuthorized) =
      ([Ev.cancelCall "pay_1", Ev.sleepRetry, Ev.cancelCall "pay_1",
        Ev.sleepRetry, Ev.cancelCall "pay_1"],
       some (DbEff.markFailed ("void failed after "
         ++ toString _MAX_RETRIES ++ " attempts: " ++ "boom"))))
    ∧ (handle_finalize gwAllFail (some "bk1") (some 480)
        (some exRowAuthorized) =
      ([Ev.captureCall "pay_1" 480, Ev.sleepRetry,
        Ev.captureCall "pay_1" 480, Ev.sleepRetry,
        Ev.captureCall "pay_1" 480],
       some (DbEff.markFailed ("capture failed after "
         ++ toString _MAX_RETRIES ++ " attempts: "
         ++ ("cap fail " ++ toString 3)))))
    ∧ (apply_db_eff "t9"
        (handle_finalize gwAllFail (some "bk1") (some 480)
          (some exRowAuthorized)).2 exRowAuthorized).state = "FAILED" := by
  have h := finalize_retry_bound gwAllFail "bk1" exRowAuthorized "pay_1"
    480 (fun _ => "boom") (fun k => "cap fail " ++ toString k)
    (by decide) (by decide) (by decide) rfl (by decide) (by decide)
    (by decide) (fun _ => rfl) (fun _ => rfl)
  exact ⟨h.1, h.2.1, h.2.2 "t9"⟩

/-- Claim C2: when the final amount strictly exceeds the (non-negative)
authorized amount and the session is live with stored payment, card and
customer references, the reconciler issues a void of the original
pre-authorization followed by a direct charge for exactly the final
amount under the deterministic idempotency key `("fin:" ++ key)[:45]`;
on success the row is CAPTURED for the final amount with a capture
reference distinct from the original payment reference; and if the
stored card or customer reference is missing on this path the session is
marked FAILED with no charge call. -/
theorem finalize_overcharge_branch (g : Gateway) (bid : String)
    (row : SessionRow) (fa : Int)
    (pid card_id customer_id new_id : String) (pv : Payment)
    (hbid : bid ≠ "")
    (h1 : row.state ≠ "CAPTURED") (h2 : row.state ≠ "VOIDED")
    (hpid : row.square_payment_id = some pid) (hpid2 : pid ≠ "")
    (hcard : row.square_card_id = some card_id) (hcard2 : card_id ≠ "")
    (hcust : row.square_customer_id = some customer_id)
    (hcust2 : customer_id ≠ "")
    (hauth : 0 ≤ row.authorized_amount_cents)
    (hgt : row.authorized_amount_cents < fa)
    (hcancel : g.cancelResult 1 = .ok pv)
    (hcharge : g.chargeResult 1 = .ok { id := some new_id, amount := some fa })
    (hnew : new_id ≠ pid) :
    handle_finalize g (some bid) (some fa) (some row) =
      ([Ev.cancelCall pid,
        Ev.chargeCall card_id customer_id bid fa
          (("fin:" ++ row.idempotency_key).take 45)],
       some (DbEff.markCaptured new_id fa))
    ∧ (∀ now,
        (apply_db_eff now (some (DbEff.markCaptured new_id fa)) row).state
          = "CAPTURED"
      ∧ (apply_db_eff now (some (DbEff.markCaptured new_id fa))
          row).captured_amount_cents = some fa
      ∧ (apply_db_eff now (some (DbEff.markCaptured new_id fa))
          row).square_capture_payment_id = some new_id
      ∧ (apply_db_eff now (some (DbEff.markCaptured new_id fa))
          row).square_capture_payment_id ≠ row.square_payment_id)
    ∧ (∀ row2 : SessionRow,
        row2.state ≠ "CAPTURED" → row2.state ≠ "VOIDED" →
        row2.square_payment_id = some pid →
        row2.authorized_amount_cents = row.authorized_amount_cents →
        blankToNone row2.square_card_id = none ∨
          blankToNone row2.square_customer_id = none →
        ((handle_finalize g (some bid) (some fa) (some row2)).1.all
            (fun e => !e.isChargeCall) = true
          ∧ ∃ msg, (handle_finalize g (some bid) (some fa) (some row2)).2
              = some (DbEff.markFailed msg))) := by
  have hfa : fa ≠ 0 := by omega
  have hp : blankToNone row.square_payment_id = some pid := by
    simp [hpid, blankToNone, hpid2]
  have hc : blankToNone row.square_card_id = some card_id := by
    simp [hcard, blankToNone, hcard2]
  have hcu : blankToNone row.square_customer_id = some customer_id := by
    simp [hcust, blankToNone, hcust2]
  refine ⟨?_, ?_, ?_⟩
  · simp [handle_finalize, hbid, h1, h2, hp, hc, hcu, hfa, hgt,
      _MAX_RETRIES, runAttempts, hcancel, hcharge]
  · intro now
    refine ⟨rfl, rfl, rfl, ?_⟩
    simp [apply_db_eff, mark_captured_row, hpid, hnew]
  · intro row2 g1 g2 g3 g4 g5
    have hgt2 : row2.authorized_amount_cents < fa := g4 ▸ hgt
    have g3' : blankToNone row2.square_payment_id = some pid := by
      simp [g3, blankToNone, hpid2]
    rcases g5 with g5 | g5
    · rcases hcu2 : blankToNone row2.square_customer_id with _ | cu <;>
        simp [handle_finalize, hbid, g1, g2, g3', hfa, hgt2, _MAX_RETRIES,
          runAttempts, hcancel, g5, hcu2, Ev.isChargeCall]
    · rcases hca : blankToNone row2.square_card_id with _ | ca <;>
        simp [handle_finalize, hbid, g1, g2, g3', hfa, hgt2, _MAX_RETRIES,
          runAttempts, hcancel, g5, hca, Ev.isChargeCall]

/-- Witness for C2: authorized 500, final 800 — the concrete run voids
`pay_1`, then direct-charges 800 under key `fin:ev:ch1:bk1`, and the row
references `chg_1 ≠ pay_1`; the row variant with no stored card is
marked FAILED without a charge call. -/
theorem finalize_overcharge_branch_witness :
    handle_finalize gwOvercharge (some "bk1") (some 800)
      (some exRowAuthorized) =
      ([Ev.cancelCall "pay_1",
        Ev.chargeCall "card_1" "cus_1" "bk1" 800
          (("fin:" ++ exRowAuthorized.idempotency_key).take 45)],
       some (DbEff.markCaptured "chg_1" 800))
    ∧ (apply_db_eff "t9" (some (DbEff.markCaptured "chg_1" 800))
        exRowAuthorized).state = "CAPTURED"
    ∧ (apply_db_eff "t9" (some (DbEff.markCaptured "chg_1" 800))
        exRowAuthorized).captured_amount_cents = some 800
    ∧ (apply_db_eff "t9" (some (DbEff.markCaptured "chg_1" 800))
        exRowAuthorized).square_capture_payment_id
        ≠ exRowAuthorized.square_payment_id
    ∧ (handle_finalize gwOvercharge (some "bk1") (some 800)
        (some exRowNoCard)).1.all (fun e => !e.isChargeCall) = true := by
  have h := finalize_overcharge_branch gwOvercharge "bk1"
    exRowAuthorized 800 "pay_1" "card_1" "cus_1" "chg_1"
    { id := some "pay_1", amount := some 500 }
    (by decide) (by decide) (by decide) rfl (by decide) rfl (by decide)
    rfl (by decide) (by decide) (by decide) rfl rfl (by decide)
  exact ⟨h.1, (h.2.1 "t9").1, (h.2.1 "t9").2.1, (h.2.1 "t9").2.2.2,
    (h.2.2 exRowNoCard (by decide) (by decide) rfl rfl (Or.inl rfl)).1⟩

/-- Claim C10: a finalize message with a strictly negative amount, on a
live session with a stored payment reference and a non-negative
authorized amount, is not rejected: the handler takes the normal capture
branch and its first gateway action is `capture_payment` at exactly the
negative amount (every event of the run is that capture call or a retry
sleep). -/
theorem finalize_negative_amount_capture (g : Gateway) (bid : String)
    (row : SessionRow) (pid : String) (fa : Int)
    (hbid : bid ≠ "")
    (h1 : row.state ≠ "CAPTURED") (h2 : row.state ≠ "VOIDED")
    (hpid : row.square_payment_id = some pid) (hpid2 : pid ≠ "")
    (hneg : fa < 0) (hauth : 0 ≤ row.authorized_amount_cents) :
    (handle_finalize g (some bid) (some fa) (some row)).1.head?
      = some (Ev.captureCall pid fa)
    ∧ (handle_finalize g (some bid) (some fa) (some row)).1.all
        (Ev.isCaptureOrSleep pid fa) = true := by
  have hfa : fa ≠ 0 := by omega
  have hnotlt : ¬ (row.authorized_amount_cents < fa) := by omega
  have hp : blankToNone row.square_payment_id = some pid := by
    simp [hpid, blankToNone, hpid2]
  have htr : (handle_finalize g (some bid) (some fa) (some row)).1
      = (runAttempts g.captureResult (Ev.captureCall pid fa)
          1 _MAX_RETRIES none).1 := by
    simp only [handle_finalize, hp]
    rw [if_neg hbid, if_neg (by simp [h1, h2]), if_neg hfa, if_neg hnotlt]
    split <;> rfl
  rw [htr]
  exact ⟨runAttempts_head g.captureResult (Ev.captureCall pid fa) 1 2 none,
    runAttempts_all_capture g.captureResult pid fa _MAX_RETRIES 1 none⟩

/-- Witness for C10: finalize with amount −50 on the concrete authorized
row starts with a capture call at −50 even when the gateway fails. -/
theorem finalize_negative_amount_capture_witness :
    (handle_finalize gwAllFail (some "bk1") (some (-50))
      (some exRowAuthorized)).1.head?
      = some (Ev.captureCall "pay_1" (-50))
    ∧ (handle_finalize gwAllFail (some "bk1") (some (-50))
        (some exRowAuthorized)).1.all
        (Ev.isCaptureOrSleep "pay_1" (-50)) = true :=
  finalize_negative_amount_capture gwAllFail "bk1" exRowAuthorized
    "pay_1" (-50) (by decide) (by decide) (by decide) rfl (by decide)
    (by decide) (by decide)

/-! ## Admin corrective actions (src/ev_portal/rootfs/app/admin/router.py) -/

/-- The `result_json` column of an audit entry: either the serialized
gateway payment object, or the serialized error dict written when the
gateway call raised. -/
inductive AdminResult where
  | payment (p : Payment)
  | failure (error : String)
  deriving Repr, DecidableEq

/-- One row appended to `audit_log` by `db.write_audit_log`
(`before_json` / `after_json` / `result_json` are kept as the structured
values that get serialized; `none` models an argument left at its
`None` default). -/
structure AuditEntry where
  actor : String
  action : String
  idempotency_key : String
  reason : Option String
  before : Option SessionRow
  after : Option SessionRow
  result : Option AdminResult
  deriving Repr, DecidableEq

/-- The HTTP-visible outcome of an admin action handler. -/
inductive AdminOutcome where
  | httpError (code : Nat) (detail : String)
  | ok
  deriving Repr, DecidableEq

/-- `capture_session` (admin/router.py lines 512-562): 404 when the key
resolves to no row, 422 when the row has no (non-blank) payment id, 409
unless the state is AUTHORIZED, and only then the gateway call; on a
gateway error it writes an audit entry with the before snapshot and the
error result and raises 502; on success it runs `mark_captured` with the
request amount and `result.get("id", payment_id)` and writes the full
before/after/result audit entry.  Returns the audit entries written, the
outcome, and the row after the action. -/
def capture_session (now actor idempotency_key : String)
    (amount_cents : Int) (row : Option SessionRow)
    (gw : Except String Payment) :
    List AuditEntry × AdminOutcome × Option SessionRow :=
  match row with
  | none =>
    ([], AdminOutcome.httpError 404
      ("Session not found: " ++ pyRepr (some idempotency_key)), none)
  | some s =>
    match blankToNone s.square_payment_id with
    | none =>
      ([], AdminOutcome.httpError 422
        "Session has no Square payment_id – cannot capture", some s)
    | some payment_id =>
      if s.state ≠ "AUTHORIZED" then
        ([], AdminOutcome.httpError 409
          ("State is " ++ pyRepr (some s.state)
            ++ "; can only capture AUTHORIZED sessions"), some s)
      else
        match gw with
        | Except.error e =>
          ([{ actor := actor, action := "capture",
              idempotency_key := idempotency_key, reason := none,
              before := some s, after := none,
              result := some (AdminResult.failure e) }],
            AdminOutcome.httpError 502 e, some s)
        | Except.ok p =>
          let s2 := mark_captured_row now (p.id.getD payment_id)
            amount_cents s
          ([{ actor := actor, action := "capture",
              idempotency_key := idempotency_key, reason := none,
              before := some s, after := some s2,
              result := some (AdminResult.payment p) }],
            AdminOutcome.ok, some s2)

/-- `void_session` (admin/router.py lines 688-732): same guard sequence
as capture (404, 422, 409 unless AUTHORIZED); on gateway error an audit
entry with before and error result plus 502; on success `mark_canceled`
with the original payment id and the full audit triple. -/
def void_session (now actor idempotency_key : String)
    (row : Option SessionRow) (gw : Except String Payment) :
    List AuditEntry × AdminOutcome × Option SessionRow :=
  match row with
  | none =>
    ([], AdminOutcome.httpError 404
      ("Session not found: " ++ pyRepr (some idempotency_key)), none)
  | some s =>
    match blankToNone s.square_payment_id with
    | none =>
      ([], AdminOutcome.httpError 422
        "Session has no Square payment_id – cannot void", some s)
    | some payment_id =>
      if s.state ≠ "AUTHORIZED" then
        ([], AdminOutcome.httpError 409
          ("Session state is " ++ pyRepr (some s.state)
            ++ "; can only void AUTHORIZED sessions"), some s)
      else
        match gw with
        | Except.error e =>
          ([{ actor := actor, action := "void",
              idempotency_key := idempotency_key, reason := none,
              before := some s, after := none,
              result := some (AdminResult.failure e) }],
            AdminOutcome.httpError 502 e, some s)
        | Except.ok p =>
          let s2 := mark_canceled_row now payment_id s
          ([{ actor := actor, action := "void",
              idempotency_key := idempotency_key, reason := none,
              before := some s, after := some s2,
              result := some (AdminResult.payment p) }],
            AdminOutcome.ok, some s2)

/-- The authorized example row with no stored payment reference. -/
def exRowNoPayment : SessionRow :=
  { exRowAuthorized with square_payment_id := none }

/-- Counterexample to claim C8 as stated: an admin capture on the
concrete CAPTURED row is a failing execution (wrong-state conflict,
HTTP 409) that writes no audit entry at all. -/
theorem admin_conflict_writes_no_audit :
    (capture_session "t9" "admin" "ev:ch1:bk1" 480 (some exRowCaptured)
      (Except.ok { id := some "cap_9", amount := some 480 })).1 = []
    ∧ (capture_session "t9" "admin" "ev:ch1:bk1" 480 (some exRowCaptured)
        (Except.ok { id := some "cap_9", amount := some 480 })).2.1
      = AdminOutcome.httpError 409
          ("State is " ++ pyRepr (some "CAPTURED")
            ++ "; can only capture AUTHORIZED sessions") := by
  exact ⟨rfl, rfl⟩

/-- Claim C8 (amended): admin capture and void write an audit entry with
before/after/result snapshots on success, and an audit entry with the
before snapshot and the error result (but no after snapshot) on a
gateway failure; the precondition failures — wrong-state conflict (409),
missing payment reference (422) and unknown key (404) — return an HTTP
error without writing any audit entry. -/
theorem admin_audit_coverage (now actor key pid : String) (amt : Int)
    (s : SessionRow) (p : Payment) (err : String)
    (hst : s.state = "AUTHORIZED")
    (hpid : s.square_payment_id = some pid) (hpid2 : pid ≠ "") :
    (capture_session now actor key amt (some s) (Except.ok p)).1 =
      [{ actor := actor, action := "capture", idempotency_key := key,
         reason := none, before := some s,
         after := some (mark_captured_row now (p.id.getD pid) amt s),
         result := some (AdminResult.payment p) }]
    ∧ (capture_session now actor key amt (some s) (Except.error err)).1 =
      [{ actor := actor, action := "capture", idempotency_key := key,
         reason := none, before := some s, after := none,
         result := some (AdminResult.failure err) }]
    ∧ (void_session now actor key (some s) (Except.ok p)).1 =
      [{ actor := actor, action := "void", idempotency_key := key,
         reason := none, before := some s,
         after := some (mark_canceled_row now pid s),
         result := some (AdminResult.payment p) }]
    ∧ (void_session now actor key (some s) (Except.error err)).1 =
      [{ actor := actor, action := "void", idempotency_key := key,
         reason := none, before := some s, after := none,
         result := some (AdminResult.failure err) }]
    ∧ (∀ s2 : SessionRow, s2.state ≠ "AUTHORIZED" →
        (capture_session now actor key amt (some s2) (Except.ok p)).1 = []
        ∧ (void_session now actor key (some s2) (Except.ok p)).1 = [])
    ∧ (∀ s3 : SessionRow, blankToNone s3.square_payment_id = none →
        (capture_session now actor key amt (some s3) (Except.ok p)).1 = []
        ∧ (void_session now actor key (some s3) (Except.ok p)).1 = [])
    ∧ (capture_session now actor key amt none (Except.ok p)).1 = []
    ∧ (void_session now actor key none (Except.ok p)).1 = [] := by
  have hp : blankToNone s.square_payment_id = some pid := by
    simp [hpid, blankToNone, hpid2]
  refine ⟨?_, ?_, ?_, ?_, ?_, ?_, rfl, rfl⟩
  · simp [capture_session, hp, hst]
  · simp [capture_session, hp, hst]
  · simp [void_session, hp, hst]
  · simp [void_session, hp, hst]
  · intro s2 h2
    constructor <;>
      · rcases hq : blankToNone s2.square_payment_id with _ | q <;>
          simp [capture_session, void_session, hq, h2]
  · intro s3 h3
    exact ⟨by simp [capture_session, h3], by simp [void_session, h3]⟩

/-- Witness for the amended C8: concrete success and gateway-failure
audit entries for the AUTHORIZED example row, and empty audit lists for
the CAPTURED (conflict) and missing-payment (unprocessable) rows. -/
theorem admin_audit_coverage_witness :
    (capture_session "t9" "admin" "ev:ch1:bk1" 480 (some exRowAuthorized)
      (Except.ok { id := some "cap_9", amount := some 480 })).1 =
      [{ actor := "admin", action := "capture",
         idempotency_key := "ev:ch1:bk1", reason := none,
         before := some exRowAuthorized,
         after := some (mark_captured_row "t9" "cap_9" 480
           exRowAuthorized),
         result := some (AdminResult.payment
           { id := some "cap_9", amount := some 480 }) }]
    ∧ (capture_session "t9" "admin" "ev:ch1:bk1" 480
        (some exRowAuthorized) (Except.error "gw down")).1 =
      [{ actor := "admin", action := "capture",
         idempotency_key := "ev:ch1:bk1", reason := none,
         before := some exRowAuthorized, after := none,
         result := some (AdminResult.failure "gw down") }]
    ∧ (capture_session "t9" "admin" "ev:ch1:bk1" 480 (some exRowCaptured)
        (Except.ok { id := some "cap_9", amount := some 480 })).1 = []
    ∧ (void_session "t9" "admin" "ev:ch1:bk1" (some exRowNoPayment)
        (Except.ok { id := some "cap_9", amount := some 480 })).1 = [] := by
  have h := admin_audit_coverage "t9" "admin" "ev:ch1:bk1" "pay_1" 480
    exRowAuthorized { id := some "cap_9", amount := some 480 } "gw down"
    rfl rfl (by decide)
  exact ⟨h.1, h.2.1,
    (h.2.2.2.2.1 exRowCaptured (by decide)).1,
    (h.2.2.2.2.2.1 exRowNoPayment rfl).2⟩

/-! ## Session mutex acquisition (start.py / submit_payment.py) -/

/-- What a handler does about the global session mutex
(`state._session_lock`, an asyncio.Lock) given the guard state it
observes when it reaches its mutex section. -/
inductive LockAction where
  | rejectMqttUnavailable
  | rejectNotInitialized
  | failFastBusy
  | waitForLock
  | acquireNow
  deriving Repr, DecidableEq

/-- Guard sequence of `start_session` (endpoints/start.py lines 262-280):
503 when MQTT is disconnected, 503 when the lock is not yet created,
HTTP 429 ("A session request is already in progress") when
`state._session_lock.locked()` — returned without acquiring, the
fail-fast busy path — and otherwise `async with` acquires the free
lock. -/
def start_session_lock_step
    (mqtt_connected lock_initialized lock_held : Bool) : LockAction :=
  if ¬ mqtt_connected then LockAction.rejectMqttUnavailable
  else if ¬ lock_initialized then LockAction.rejectNotInitialized
  else if lock_held then LockAction.failFastBusy
  else LockAction.acquireNow

/-- Guard sequence of `_submit_payment_impl` at its mutex section
(endpoints/submit_payment.py lines 175-190): 503 when MQTT is
disconnected, 503 when the lock is not yet created, and then directly
`async with state._session_lock` — there is no `locked()` check, so on a
held lock the coroutine suspends in the lock's wait queue until the
holder releases it. -/
def submit_payment_lock_step
    (mqtt_connected lock_initialized lock_held : Bool) : LockAction :=
  if ¬ mqtt_connected then LockAction.rejectMqttUnavailable
  else if ¬ lock_initialized then LockAction.rejectNotInitialized
  else if lock_held then LockAction.waitForLock
  else LockAction.acquireNow

/-- Counterexample to claim C6 as stated: the payment-submission handler
that finds the mutex held (MQTT connected, lock initialised) waits in
the lock queue instead of failing fast with a busy error. -/
theorem submit_lock_not_fail_fast :
    submit_payment_lock_step true true true = LockAction.waitForLock
    ∧ submit_payment_lock_step true true true
      ≠ LockAction.failFastBusy := by
  decide

/-- Claim C6 (amended): only the session-start handler fails fast with a
busy error (HTTP 429) when the global session mutex is already held —
and it does so exactly when the mutex is held; the payment-submission
handler instead blocks, waiting for the mutex. -/
theorem lock_busy_behavior :
    start_session_lock_step true true true = LockAction.failFastBusy
    ∧ submit_payment_lock_step true true true = LockAction.waitForLock
    ∧ (∀ held : Bool, start_session_lock_step true true held
        = LockAction.failFastBusy ↔ held = true) := by
  decide

end EvPortal
